import Mathlib

/-!
Verification development for the IsolatedEthernet library
(`src/IsolatedEthernet.h`): a W5500-based socket abstraction for Particle
devices. The definitions below are shallow embeddings of the functions in
that header; hardware (W5500 register reads, socket statuses, pending
receive bytes, send results) is modelled as explicit inputs, and state
mutation as explicit state passing.
-/

namespace IsolatedEthernetModel

/-- Four bytes of an IPv4 address, as stored in `uint8_t ipAddr[4]` etc. -/
structure IpBytes where
  b0 : Nat
  b1 : Nat
  b2 : Nat
  b3 : Nat
deriving DecidableEq, Repr

/-- The all-zero address `0.0.0.0`. -/
def zeroIp : IpBytes := ⟨0, 0, 0, 0⟩

/-- Negation of the C condition `ipAddr[0] != 0 || ipAddr[1] != 0 || ipAddr[2] != 0 || ipAddr[3] != 0`. -/
def ipIsZero (a : IpBytes) : Prop :=
  a.b0 = 0 ∧ a.b1 = 0 ∧ a.b2 = 0 ∧ a.b3 = 0

instance (a : IpBytes) : Decidable (ipIsZero a) := by
  unfold ipIsZero; infer_instance

/-- `enum class DhcpState` from `IsolatedEthernet` (header line 1551). -/
inductive DhcpState where
  | NOT_USED
  | ATTEMPT
  | IN_PROGRESS
  | GOT_ADDRESS
  | CLEANUP
  | CLEANUP_DISABLE
  | DONE
deriving DecidableEq, Repr

/-- `enum class CallbackType` used by `callCallbacks`. -/
inductive CallbackType where
  | linkUp
  | linkDown
  | gotIpAddress
deriving DecidableEq, Repr

/-- The addresses delivered by a DHCP lease (`getIPfromDHCP` etc.). -/
structure LeaseInfo where
  ip : IpBytes
  sn : IpBytes
  gw : IpBytes
  dns : IpBytes
deriving DecidableEq, Repr

/-- The singleton `IsolatedEthernet` state relevant to the address
state machine: `dhcpState`, the stored `phyLink` sample, `isReady`, the
four address arrays, and the DHCP slot/scratch buffer ownership. -/
structure EthState where
  dhcpState : DhcpState
  phyLink : Bool
  isReady : Bool
  ipAddr : IpBytes
  subnetMaskArray : IpBytes
  gatewayAddr : IpBytes
  dnsAddr : IpBytes
  dhcpSocket : Option Nat
  dhcpBufferLive : Bool
deriving DecidableEq, Repr

/-- Hardware/protocol inputs sampled during one `stateMachine()` tick:
the live PHY link reading, the result `socketGetFree()` would return,
and whether `DHCP_run()` fires the `ip_assign` lease callback this tick
(with the assigned addresses). -/
structure TickInput where
  curPhyLink : Bool
  freeSocket : Option Nat
  lease : Option LeaseInfo
deriving DecidableEq, Repr

/-- `IsolatedEthernet::localIP()` (header line 1155): returns `IPAddress(ipAddr)`. -/
def localIP (s : EthState) : IpBytes := s.ipAddr

/-- The `ip_assign` DHCP callback registered in `setup()` (header lines
1771-1777): it calls `updateAddressSettingsFromDHCP()` (copy the four
assigned addresses, push to hardware, set `isReady` when the live PHY
link is up) and then records `dhcpState = GOT_ADDRESS`. It invokes no
user callbacks; the returned event list is what it passes to
`callCallbacks`, which is nothing. -/
def ip_assign (L : LeaseInfo) (curPhyLink : Bool) (s : EthState) :
    EthState × List CallbackType :=
  ({ s with
      ipAddr := L.ip
      subnetMaskArray := L.sn
      gatewayAddr := L.gw
      dnsAddr := L.dns
      isReady := s.isReady || curPhyLink
      dhcpState := DhcpState.GOT_ADDRESS }, [])

/-- `IsolatedEthernet::withDHCP()` (header lines 1990-1995): zero the four
bytes of `ipAddr` and set `dhcpState = ATTEMPT`. -/
def withDHCP (s : EthState) : EthState :=
  { s with ipAddr := zeroIp, dhcpState := DhcpState.ATTEMPT }

/-- `IsolatedEthernet::withStaticIP()` (header lines 1975-1988). -/
def withStaticIP (s : EthState) : EthState :=
  match s.dhcpState with
  | DhcpState.IN_PROGRESS => { s with dhcpState := DhcpState.CLEANUP_DISABLE }
  | DhcpState.GOT_ADDRESS => { s with dhcpState := DhcpState.CLEANUP_DISABLE }
  | _ => { s with dhcpState := DhcpState.NOT_USED }

/-- Link-edge phase of `IsolatedEthernet::stateMachine()` (header lines
1806-1833): compare the fresh PHY reading with the stored `phyLink`; on a
rising edge fire `linkUp` and, only in `NOT_USED` with a non-zero
configured address, set `isReady` and fire `gotIpAddress`; on a falling
edge fire `linkDown` and clear `isReady`. -/
def linkEdgePhase (s : EthState) (cur : Bool) : EthState × List CallbackType :=
  if cur ≠ s.phyLink then
    if cur then
      if s.dhcpState = DhcpState.NOT_USED ∧ ¬ ipIsZero s.ipAddr then
        ({ s with phyLink := true, isReady := true },
         [CallbackType.linkUp, CallbackType.gotIpAddress])
      else
        ({ s with phyLink := true }, [CallbackType.linkUp])
    else
      ({ s with phyLink := false, isReady := false }, [CallbackType.linkDown])
  else (s, [])

/-- One tick of `IsolatedEthernet::stateMachine()` (header lines
1801-1910): the link-edge phase followed by the `switch (dhcpState)`.
`ATTEMPT` with link up allocates the scratch buffer and a free socket and
moves to `IN_PROGRESS`, or to `DONE` when no socket is free;
`IN_PROGRESS` runs the lease protocol (the `ip_assign` callback may fire)
and falls to `CLEANUP` when the link is down; `GOT_ADDRESS` fires
`gotIpAddress` and moves to `CLEANUP`; `CLEANUP`/`CLEANUP_DISABLE`
release the DHCP socket and buffer and land in `DONE`/`NOT_USED`;
`DONE` re-enters `ATTEMPT` when the link is down. -/
def stateMachine (s : EthState) (i : TickInput) : EthState × List CallbackType :=
  let p := linkEdgePhase s i.curPhyLink
  let s1 := p.1
  let ev1 := p.2
  match s1.dhcpState with
  | DhcpState.NOT_USED => (s1, ev1)
  | DhcpState.ATTEMPT =>
      if s1.phyLink then
        let s2 := { s1 with dhcpBufferLive := true }
        match i.freeSocket with
        | some k => ({ s2 with dhcpSocket := some k, dhcpState := DhcpState.IN_PROGRESS }, ev1)
        | none => ({ s2 with dhcpState := DhcpState.DONE }, ev1)
      else (s1, ev1)
  | DhcpState.IN_PROGRESS =>
      let q := match i.lease with
        | some L => ip_assign L i.curPhyLink s1
        | none => (s1, [])
      let s2 := q.1
      let evL := q.2
      if s1.phyLink then (s2, ev1 ++ evL)
      else ({ s2 with dhcpState := DhcpState.CLEANUP }, ev1 ++ evL)
  | DhcpState.GOT_ADDRESS =>
      ({ s1 with dhcpState := DhcpState.CLEANUP }, ev1 ++ [CallbackType.gotIpAddress])
  | DhcpState.CLEANUP =>
      ({ s1 with dhcpSocket := none, dhcpBufferLive := false, dhcpState := DhcpState.DONE }, ev1)
  | DhcpState.CLEANUP_DISABLE =>
      ({ s1 with dhcpSocket := none, dhcpBufferLive := false, dhcpState := DhcpState.NOT_USED }, ev1)
  | DhcpState.DONE =>
      if s1.phyLink then (s1, ev1) else ({ s1 with dhcpState := DhcpState.ATTEMPT }, ev1)

/-- Run a sequence of maintenance ticks, keeping only the state. -/
def runTicks (s : EthState) (is : List TickInput) : EthState :=
  is.foldl (fun t i => (stateMachine t i).1) s

/-- Whether an event is the `gotIpAddress` notification. -/
def isGotIp : CallbackType → Bool
  | CallbackType.gotIpAddress => true
  | _ => false

/-- Number of `gotIpAddress` notifications in an event list. -/
def countGotIp (l : List CallbackType) : Nat := (l.filter isGotIp).length

/-!
### TCPClient receive-buffer model

`TCPClient::Data` (header lines 287-296) holds the socket handle, a fixed
byte array `buffer[TCPCLIENT_BUF_MAX_SIZE]`, the read cursor `offset`, the
filled length `total`, and the remote address. The buffer is modelled as
the list of its first `total` filled bytes.
-/

/-- Modelled from the spec: `TCPCLIENT_BUF_MAX_SIZE` is a platform macro
not present under `src/`; the header's own documentation (lines 173, 206)
and the spec give the receive-buffer capacity as 2048 bytes, the W5500
receive-window size. -/
def TCPCLIENT_BUF_MAX_SIZE : Nat := 2048

/-- `TCPClient::Data`: socket handle, filled receive bytes, cursors,
remote address. -/
structure TcpData where
  sock : Int
  buf : List Nat
  offset : Nat
  total : Nat
  remoteIP : IpBytes
deriving DecidableEq, Repr

/-- Hardware state visible to one `TCPClient` operation: the instance
`ready()` flag, whether `getsockopt(sock, SO_STATUS)` reports
`SOCK_ESTABLISHED`, the bytes pending in the W5500 receive window, the
`socketGetFree()` result, and the results of `wiznet::socket` /
`wiznet::connect`. -/
structure TcpHw where
  ready : Bool
  established : Bool
  rx : List Nat
  freeSocket : Option Nat
  socketOk : Bool
  connectOk : Bool
deriving DecidableEq, Repr

/-- `TCPClient::bufferCount()` (header lines 2478-2481): `total - offset`. -/
def bufferCount (d : TcpData) : Nat := d.total - d.offset

/-- `TCPClient::flush_buffer()` (header lines 2535-2539): reset both cursors. -/
def flush_buffer (d : TcpData) : TcpData :=
  { d with offset := 0, total := 0, buf := [] }

/-- Result of `TCPClient::available()`: the returned count, the updated
`Data`, the updated hardware (receive window drained of the bytes taken),
and the number of `wiznet::recv` refill attempts issued. -/
structure AvailResult where
  count : Nat
  d : TcpData
  hw : TcpHw
  refills : Nat
deriving DecidableEq, Repr

/-- First step of `available()` (header lines 2487-2491): "At EOB =>
Flush it" — when `total` is non-zero and `offset == total`, reset the
cursors with `flush_buffer()`. -/
def drainReset (d : TcpData) : TcpData :=
  if d.total ≠ 0 ∧ d.offset = d.total then flush_buffer d else d

/-- The guard under which `available()` issues a `wiznet::recv`:
`ready()` and `isOpen(sock_handle())` and room left
(`total < arraySize(buffer)`, header lines 2493-2499). -/
def recvAttempted (d : TcpData) (hw : TcpHw) : Prop :=
  hw.ready = true ∧ hw.established = true ∧ d.total < TCPCLIENT_BUF_MAX_SIZE

instance (d : TcpData) (hw : TcpHw) : Decidable (recvAttempted d hw) := by
  unfold recvAttempted; infer_instance

/-- Effect of the non-blocking `wiznet::recv(sock, buffer + total,
capacity - total)` call (header lines 2499-2506): it transfers
`min(capacity - total, pending)` bytes; when that is positive the bytes
are appended and `total` advances (with `offset` reset when `total` was
0), otherwise nothing changes. -/
def recvRefill (d : TcpData) (hw : TcpHw) : TcpData × TcpHw :=
  let ret := min (TCPCLIENT_BUF_MAX_SIZE - d.total) hw.rx.length
  if 0 < ret then
    ({ d with
        offset := if d.total = 0 then 0 else d.offset
        buf := d.buf ++ hw.rx.take ret
        total := d.total + ret },
     { hw with rx := hw.rx.drop ret })
  else (d, hw)

/-- `TCPClient::available()` (header lines 2483-2511): drain-reset, then
one `recv` refill attempt whenever ready, established and there is room;
finally return `bufferCount()`. `refills` counts the `recv` calls issued. -/
def tcpAvailable (d : TcpData) (hw : TcpHw) : AvailResult :=
  let d1 := drainReset d
  if recvAttempted d1 hw then
    let p := recvRefill d1 hw
    ⟨bufferCount p.1, p.1, p.2, 1⟩
  else ⟨bufferCount d1, d1, hw, 0⟩

/-- `TCPClient::read()` (header lines 2513-2516):
`(bufferCount() || available()) ? buffer[offset++] : -1`, with C
short-circuit `||` so `available()` runs only when the buffer is empty. -/
def tcpRead (d : TcpData) (hw : TcpHw) : Int × TcpData × TcpHw :=
  if bufferCount d ≠ 0 then
    ((d.buf.getD d.offset 0 : Int), { d with offset := d.offset + 1 }, hw)
  else
    let r := tcpAvailable d hw
    if r.count ≠ 0 then
      ((r.d.buf.getD r.d.offset 0 : Int), { r.d with offset := r.d.offset + 1 }, r.hw)
    else (-1, r.d, r.hw)

/-- `TCPClient::read(buffer, size)` (header lines 2518-2528): when bytes
are buffered (refilling via `available()` first if drained), copy
`min(size, bufferCount())` bytes out and advance `offset`; otherwise
return -1. The returned `Int` is the byte count copied. -/
def tcpReadBuf (d : TcpData) (hw : TcpHw) (size : Nat) : Int × TcpData × TcpHw :=
  if bufferCount d ≠ 0 then
    let n := min size (bufferCount d)
    ((n : Int), { d with offset := d.offset + n }, hw)
  else
    let r := tcpAvailable d hw
    if r.count ≠ 0 then
      let n := min size r.count
      ((n : Int), { r.d with offset := r.d.offset + n }, r.hw)
    else (-1, r.d, r.hw)

/-- `TCPClient::peek()` (header lines 2530-2533): like `read()` but does
not advance `offset`. -/
def tcpPeek (d : TcpData) (hw : TcpHw) : Int × TcpData × TcpHw :=
  if bufferCount d ≠ 0 then
    ((d.buf.getD d.offset 0 : Int), d, hw)
  else
    let r := tcpAvailable d hw
    if r.count ≠ 0 then ((r.d.buf.getD r.d.offset 0 : Int), r.d, r.hw)
    else (-1, r.d, r.hw)

/-- `TCPClient::stop()` (header lines 2552-2569): no-op when the handle is
invalid; otherwise disconnect, invalidate the handle, clear the remote
address, and `flush_buffer()`. -/
def tcpStop (d : TcpData) : TcpData :=
  if d.sock < 0 then d
  else { d with sock := -1, remoteIP := zeroIp, offset := 0, total := 0, buf := [] }

/-- `TCPClient::connect(ip, port, nif)` (header lines 2369-2429): `stop()`
first; when `ready()`, take a free socket and open it in TCP mode; with a
valid handle, `flush_buffer()`, issue the connect handshake, record the
remote address, and `stop()` again when the handshake failed. Returns the
`connected` flag and the final `Data`. -/
def tcpConnect (d : TcpData) (hw : TcpHw) (ip : IpBytes) : Bool × TcpData :=
  let d1 := tcpStop d
  if hw.ready then
    let d2 := match hw.freeSocket with
      | some k => if hw.socketOk then { d1 with sock := (k : Int) } else d1
      | none => d1
    if 0 ≤ d2.sock then
      let d3 := flush_buffer d2
      let d4 := { d3 with remoteIP := ip }
      if hw.connectOk then (true, d4) else (false, tcpStop d4)
    else (false, d2)
  else (false, d1)

/-- The receive-buffer invariant from the spec's data model:
`offset ≤ total ≤ capacity`. -/
def TcpInv (d : TcpData) : Prop :=
  d.offset ≤ d.total ∧ d.total ≤ TCPCLIENT_BUF_MAX_SIZE

instance (d : TcpData) : Decidable (TcpInv d) := by
  unfold TcpInv; infer_instance

/-!
### TCPClient::write send loop

`TCPClient::write(buffer, size, timeout)` (header lines 2446-2476) is a
do/while loop handing bytes to `wiznet::send`. The hardware is modelled
as a function `send : Nat → Int` giving the result of the send attempt on
iteration `n` (positive = bytes accepted, `SOCK_BUSY` = transient busy,
other negative = error). Each iteration ends with `delay(1)`, so the
`millis() - start` reading when the loop condition is evaluated after
iteration `n` is modelled as `n + 1`.
-/

/-- `SOCK_BUSY` from the Wiznet ioLibrary `socket.h` (external
collaborator of this library): value 0. -/
def SOCK_BUSY : Int := 0

/-- The do/while body and condition of `TCPClient::write` (header lines
2454-2470), parameterised by the iteration counter `iter` and the running
`offset` of bytes accepted so far. Returns
(final `ret`, write error recorded via `setWriteError`, iterations
executed, bytes accepted). The loop repeats only while
`timeout != 0 && millis() - start < timeout`. -/
def writeLoop (send : Nat → Int) (size timeout : Nat) (iter off : Nat) :
    Int × Option Int × Nat × Nat :=
  let ret := send iter
  if 0 < ret then
    let off2 := off + ret.toNat
    if off2 = size then ((size : Int), none, iter + 1, off2)
    else if timeout ≠ 0 ∧ iter + 1 < timeout then writeLoop send size timeout (iter + 1) off2
    else (ret, none, iter + 1, off2)
  else if ret ≠ SOCK_BUSY then (ret, some ret, iter + 1, off)
  else if timeout ≠ 0 ∧ iter + 1 < timeout then writeLoop send size timeout (iter + 1) off
  else (ret, none, iter + 1, off)
termination_by timeout - iter
decreasing_by
  · omega
  · omega

/-- `TCPClient::write(buffer, size, timeout)` (header lines 2446-2476):
`clearWriteError()` then the send loop from `offset = 0`. The first
component is the value of the C `return ret;` — note the function's
declared return type is the unsigned `size_t`. -/
def tcpWrite (send : Nat → Int) (size timeout : Nat) : Int × Option Int × Nat × Nat :=
  writeLoop send size timeout 0 0

/-- The value actually produced by `return ret;` after conversion to the
32-bit unsigned `size_t` return type. -/
def sizeTCast (i : Int) : Nat := (i % 4294967296).toNat

/-!
### UDP (DatagramSocket)
-/

/-- `IsolatedEthernet::UDP` state relevant to binding and multicast:
`_sock`, `_port`, the parse cursors, and (instrumentation) whether the
currently held hardware socket was opened with `Sn_MR_MULTI`. -/
structure UdpState where
  sock : Int
  port : Nat
  offset : Nat
  total : Nat
  multicast : Bool
deriving DecidableEq, Repr

/-- Hardware inputs for one UDP operation: whether
`getsockopt(_sock, SO_STATUS)` reports `SOCK_UDP`, the `socketGetFree()`
result, and whether the `wiznet::socket` open succeeds. -/
structure UdpHw where
  sockOpenUdp : Bool
  freeSocket : Option Nat
  socketOk : Bool
deriving DecidableEq, Repr

/-- `UDP::stop()` (header lines 2863-2874): close the hardware socket if
open, invalidate `_sock`, `flush_buffer()`. With no socket held, no
multicast membership remains. -/
def udpStop (s : UdpState) : UdpState :=
  { s with sock := -1, offset := 0, total := 0, multicast := false }

/-- `UDP::begin(port)` (header lines 2833-2857): `stop()`, then take a
free socket and open it in plain UDP mode (`Sn_MR_UDP`, no multicast
flag) bound to `port`; on success record `_sock` and `_port` and return
1, otherwise return 0. -/
def udpBegin (s : UdpState) (hw : UdpHw) (port : Nat) : Int × UdpState :=
  let s1 := udpStop s
  match hw.freeSocket with
  | some k =>
      if hw.socketOk then (1, { s1 with sock := (k : Int), port := port, multicast := false })
      else (0, s1)
  | none => (0, s1)

/-- `UDP::joinMulticast(ip)` (header lines 3001-3033): fail with -1 when
the socket is not open; otherwise `stop()`, take a free socket, set the
multicast destination registers and open with `Sn_MR_MULTI` on the same
`_port`. -/
def joinMulticast (s : UdpState) (hw : UdpHw) : Int × UdpState :=
  if ¬ hw.sockOpenUdp then (-1, s)
  else
    let s1 := udpStop s
    match hw.freeSocket with
    | some k =>
        if hw.socketOk then (1, { s1 with sock := (k : Int), multicast := true })
        else (0, s1)
    | none => (0, s1)

/-- `UDP::leaveMulticast(ip)` (header lines 3035-3041): fail with -1 when
the socket is not open (`if (!isOpen(_sock)) return -1;`); otherwise
`stop()` and return `begin(_port)`. -/
def leaveMulticast (s : UdpState) (hw : UdpHw) : Int × UdpState :=
  if ¬ hw.sockOpenUdp then (-1, s)
  else udpBegin (udpStop s) hw s.port

/-- The do/while of `UDP::receivePacket` (header lines 2954-2964):
`rsr n` models the `getSn_RX_RSR` reading on iteration `n`, `recvRes`
the `wiznet::recvfrom` result. When data is pending the function returns
`recvRes` at once; otherwise it sleeps 1 ms and repeats only while
`timeout != 0 && millis() - start < timeout`, finally returning 0.
Second component: iterations executed. -/
def receivePacketLoop (rsr : Nat → Nat) (recvRes : Int) (timeout : Nat) (iter : Nat) :
    Int × Nat :=
  if 0 < rsr iter then (recvRes, iter + 1)
  else if timeout ≠ 0 ∧ iter + 1 < timeout then receivePacketLoop rsr recvRes timeout (iter + 1)
  else (0, iter + 1)
termination_by timeout - iter
decreasing_by omega

/-- `UDP::receivePacket(buffer, size, timeout)` (header lines 2947-2967):
-1 when the socket is not open or the buffer pointer is null; otherwise
the polling loop. -/
def udpReceivePacket (isOpenSock hasBuffer : Bool) (rsr : Nat → Nat) (recvRes : Int)
    (timeout : Nat) : Int × Nat :=
  if isOpenSock ∧ hasBuffer then receivePacketLoop rsr recvRes timeout 0
  else (-1, 0)

/-!
### TCPServer (ListenSocket)
-/

/-- `IsolatedEthernet::TCPServer` state: the listening `_sock` and the
socket handle inside `_client`, the most recently accepted connection. -/
structure ServerState where
  sock : Int
  clientSock : Int
deriving DecidableEq, Repr

/-- Hardware inputs for `TCPServer::begin`. -/
structure ServerHw where
  ready : Bool
  freeSocket : Option Nat
  socketOk : Bool
  listenOk : Bool
deriving DecidableEq, Repr

/-- `TCPServer::stop()` (header lines 2738-2747): `_client.stop()` (which
disconnects the client's socket when it holds one), then disconnect
`_sock` if non-negative, then `_sock = -1`. The second component lists
the socket handles on which a `wiznet::disconnect` was issued, in order. -/
def serverStop (s : ServerState) : ServerState × List Int :=
  let clientDisc : List Int := if s.clientSock < 0 then [] else [s.clientSock]
  let servDisc : List Int := if 0 ≤ s.sock then [s.sock] else []
  (⟨-1, -1⟩, clientDisc ++ servDisc)

/-- `TCPServer::startListener()` (header lines 2690-2718): take a free
socket, open it in TCP mode on `_port` (recording `_sock` on success),
then put it in listen mode; true only if both succeed. -/
def startListener (s : ServerState) (hw : ServerHw) : Bool × ServerState :=
  match hw.freeSocket with
  | some k =>
      if hw.socketOk then
        if hw.listenOk then (true, { s with sock := (k : Int) })
        else (false, { s with sock := (k : Int) })
      else (false, s)
  | none => (false, s)

/-- `TCPServer::begin()` (header lines 2721-2736): `stop()` first; then
the check `if (socket_handle_valid(_sock)) return true;` (unreachable,
since `stop()` just set `_sock = -1`); then, when the interface is ready,
`startListener()`. Returns (result, state, disconnects issued). -/
def serverBegin (s : ServerState) (hw : ServerHw) : Bool × ServerState × List Int :=
  let p := serverStop s
  let s1 := p.1
  if 0 ≤ s1.sock then (true, s1, p.2)
  else if hw.ready then
    let q := startListener s1 hw
    (q.1, q.2, p.2)
  else (false, s1, p.2)

/-!
### One-shot DNS resolution
-/

/-- Inputs to one `inet_gethostbyname` call: whether the
`new uint8_t[MAX_DNS_BUF_SIZE]` allocation succeeds, the
`socketGetFree()` result, and the `DNS_run` protocol result
(1 = resolved). -/
structure DnsEnv where
  newOk : Bool
  freeSocket : Option Nat
  dnsRunResult : Int
deriving DecidableEq, Repr

/-- Resource-ownership state around DNS resolution: whether the
`dnsBuffer` pointer is non-null, whether the allocation behind it is
still live (not yet `delete[]`-d), and the hardware slot held for DNS. -/
structure DnsResources where
  bufPtr : Bool
  bufLive : Bool
  slotHeld : Option Nat
deriving DecidableEq, Repr

/-- `IsolatedEthernet::inet_gethostbyname` (header lines 1928-1973):
allocate `dnsBuffer` when the pointer is null (returning -1 when the
allocation fails); take a free socket; run `DNS_init`/`DNS_run`; success
(0) exactly when `DNS_run` returns 1, otherwise -1; no free socket also
gives -1; finally `delete[] dnsBuffer` on every path past allocation
(the pointer itself is not nulled). The `DNS_run` protocol round is
external to `src/` and is modelled from the spec: it transiently uses
the allocated slot and closes it before returning, so `slotHeld` is
`none` again at return. -/
def inet_gethostbyname (env : DnsEnv) (r : DnsResources) : Int × DnsResources :=
  if ¬ r.bufPtr ∧ ¬ env.newOk then (-1, r)
  else
    let r1 := if r.bufPtr then r else { r with bufPtr := true, bufLive := true }
    match env.freeSocket with
    | some _ =>
        let res : Int := if env.dnsRunResult = 1 then 0 else -1
        (res, { r1 with slotHeld := none, bufLive := false })
    | none => (-1, { r1 with bufLive := false })

/-!
### Helper lemmas
-/

lemma drainReset_inv {d : TcpData} (h : TcpInv d) : TcpInv (drainReset d) := by
  obtain ⟨h1, h2⟩ := h
  simp only [drainReset, flush_buffer, TcpInv]
  split
  · exact ⟨Nat.le_refl 0, Nat.zero_le _⟩
  · exact ⟨h1, h2⟩

lemma recvRefill_inv {d : TcpData} {hw : TcpHw} (h : TcpInv d) :
    TcpInv (recvRefill d hw).1 := by
  obtain ⟨h1, h2⟩ := h
  have hle : min (TCPCLIENT_BUF_MAX_SIZE - d.total) hw.rx.length ≤
      TCPCLIENT_BUF_MAX_SIZE - d.total := Nat.min_le_left _ _
  simp only [recvRefill, TcpInv]
  split
  · refine ⟨?_, ?_⟩
    · simp only
      split <;> omega
    · simp only
      omega
  · exact ⟨h1, h2⟩

lemma tcpAvailable_inv {d : TcpData} {hw : TcpHw} (h : TcpInv d) :
    TcpInv (tcpAvailable d hw).d := by
  simp only [tcpAvailable]
  split
  · exact recvRefill_inv (drainReset_inv h)
  · exact drainReset_inv h

lemma tcpAvailable_count {d : TcpData} {hw : TcpHw} :
    (tcpAvailable d hw).count = bufferCount (tcpAvailable d hw).d := by
  simp only [tcpAvailable]
  split <;> rfl

lemma tcpAvailable_total_le {d : TcpData} {hw : TcpHw} (h : TcpInv d) :
    (tcpAvailable d hw).d.total ≤ TCPCLIENT_BUF_MAX_SIZE :=
  (tcpAvailable_inv h).2

lemma drainReset_count (d : TcpData) : bufferCount (drainReset d) = d.total - d.offset := by
  unfold drainReset bufferCount flush_buffer
  split_ifs with h
  · simp [h.2]
  · rfl

lemma recvRefill_rx_nil {d : TcpData} {hw : TcpHw} (h : hw.rx = []) :
    recvRefill d hw = (d, hw) := by
  unfold recvRefill
  rw [h]
  simp

lemma recvAttempted_drainReset (d : TcpData) (hw : TcpHw) :
    recvAttempted (drainReset d) hw ↔
      hw.ready = true ∧ hw.established = true ∧
        (d.offset = d.total ∨ d.total < TCPCLIENT_BUF_MAX_SIZE) := by
  unfold recvAttempted drainReset flush_buffer
  split_ifs with h
  · constructor
    · rintro ⟨a, b, _⟩; exact ⟨a, b, Or.inl h.2⟩
    · rintro ⟨a, b, _⟩
      refine ⟨a, b, ?_⟩
      norm_num [TCPCLIENT_BUF_MAX_SIZE]
  · constructor
    · rintro ⟨a, b, c⟩; exact ⟨a, b, Or.inr c⟩
    · rintro ⟨a, b, c⟩
      refine ⟨a, b, ?_⟩
      rcases c with c | c
      · by_cases ht : d.total = 0
        · rw [ht]; norm_num [TCPCLIENT_BUF_MAX_SIZE]
        · exact absurd ⟨ht, c⟩ h
      · exact c

lemma tcpAvailable_rx_nil {d : TcpData} {hw : TcpHw} (h : hw.rx = []) :
    (tcpAvailable d hw).count = d.total - d.offset ∧
    (tcpAvailable d hw).d = drainReset d ∧ (tcpAvailable d hw).hw = hw := by
  simp only [tcpAvailable]
  split
  · rw [recvRefill_rx_nil h]
    exact ⟨drainReset_count d, rfl, rfl⟩
  · exact ⟨drainReset_count d, rfl, rfl⟩

lemma tcpRead_inv {d : TcpData} {hw : TcpHw} (h : TcpInv d) : TcpInv (tcpRead d hw).2.1 := by
  obtain ⟨h1, h2⟩ := h
  obtain ⟨i1, i2⟩ := @tcpAvailable_inv d hw ⟨h1, h2⟩
  have hc := @tcpAvailable_count d hw
  unfold bufferCount at hc
  unfold TcpInv
  simp only [tcpRead]
  split_ifs with g1 g2 <;> unfold bufferCount at g1 <;> dsimp only <;>
    constructor <;> omega

lemma tcpReadBuf_inv {d : TcpData} {hw : TcpHw} {size : Nat} (h : TcpInv d) :
    TcpInv (tcpReadBuf d hw size).2.1 := by
  obtain ⟨h1, h2⟩ := h
  obtain ⟨i1, i2⟩ := @tcpAvailable_inv d hw ⟨h1, h2⟩
  have hc := @tcpAvailable_count d hw
  unfold bufferCount at hc
  unfold TcpInv
  simp only [tcpReadBuf]
  split_ifs with g1 g2 <;> unfold bufferCount at g1 <;> dsimp only <;>
    (try unfold bufferCount) <;> constructor <;> omega

lemma tcpPeek_inv {d : TcpData} {hw : TcpHw} (h : TcpInv d) : TcpInv (tcpPeek d hw).2.1 := by
  have hi := @tcpAvailable_inv d hw h
  simp only [tcpPeek]
  split_ifs with g1 g2
  · exact h
  · exact hi
  · exact hi

lemma tcpStop_inv {d : TcpData} (h : TcpInv d) : TcpInv (tcpStop d) := by
  simp only [tcpStop]
  split_ifs with g1
  · exact h
  · exact ⟨Nat.le_refl 0, Nat.zero_le _⟩

lemma tcpConnect_inv {d : TcpData} {hw : TcpHw} {ip : IpBytes} (h : TcpInv d) :
    TcpInv (tcpConnect d hw ip).2 := by
  have hstop : TcpInv (tcpStop d) := tcpStop_inv h
  simp only [tcpConnect]
  cases hf : hw.freeSocket with
  | some k =>
      simp only [hf]
      split_ifs <;>
        first
          | exact ⟨Nat.le_refl 0, Nat.zero_le _⟩
          | exact hstop
          | (apply tcpStop_inv; exact ⟨Nat.le_refl 0, Nat.zero_le _⟩)
  | none =>
      simp only [hf]
      split_ifs <;>
        first
          | exact ⟨Nat.le_refl 0, Nat.zero_le _⟩
          | exact hstop
          | (apply tcpStop_inv; exact ⟨Nat.le_refl 0, Nat.zero_le _⟩)

lemma linkEdgePhase_dhcpState (s : EthState) (c : Bool) :
    (linkEdgePhase s c).1.dhcpState = s.dhcpState := by
  unfold linkEdgePhase
  split_ifs <;> rfl

lemma linkEdgePhase_phyLink (s : EthState) (c : Bool) :
    (linkEdgePhase s c).1.phyLink = c := by
  unfold linkEdgePhase
  split_ifs with h1 h2 h3 <;> simp_all

lemma linkEdgePhase_ipAddr (s : EthState) (c : Bool) :
    (linkEdgePhase s c).1.ipAddr = s.ipAddr := by
  unfold linkEdgePhase
  split_ifs <;> rfl

lemma linkEdgePhase_isReady_false {s : EthState} (c : Bool)
    (h1 : s.isReady = false) (h2 : ipIsZero s.ipAddr) :
    (linkEdgePhase s c).1.isReady = false := by
  unfold linkEdgePhase
  split_ifs with g1 g2 g3
  · exact absurd h2 g3.2
  · exact h1
  · rfl
  · exact h1

lemma linkEdgePhase_events_no_gotIp {s : EthState} (c : Bool)
    (h : s.dhcpState ≠ DhcpState.NOT_USED) :
    countGotIp (linkEdgePhase s c).2 = 0 := by
  unfold linkEdgePhase
  split_ifs with g1 g2 g3
  · exact absurd g3.1 h
  · rfl
  · rfl
  · rfl

lemma stateMachine_attempt_some {s : EthState} {i : TickInput} {k : Nat}
    (hs : s.dhcpState = DhcpState.ATTEMPT) (hl : i.curPhyLink = true)
    (hf : i.freeSocket = some k) :
    (stateMachine s i).1.dhcpState = DhcpState.IN_PROGRESS ∧
    (stateMachine s i).1.dhcpSocket = some k := by
  have h1 : (linkEdgePhase s i.curPhyLink).1.dhcpState = DhcpState.ATTEMPT := by
    rw [linkEdgePhase_dhcpState, hs]
  have h2 : (linkEdgePhase s i.curPhyLink).1.phyLink = true := by
    rw [linkEdgePhase_phyLink, hl]
  simp only [stateMachine]
  rw [h1, h2, hf]
  simp

lemma stateMachine_attempt_none {s : EthState} {i : TickInput}
    (hs : s.dhcpState = DhcpState.ATTEMPT) (hl : i.curPhyLink = true)
    (hf : i.freeSocket = none) :
    (stateMachine s i).1.dhcpState = DhcpState.DONE := by
  have h1 : (linkEdgePhase s i.curPhyLink).1.dhcpState = DhcpState.ATTEMPT := by
    rw [linkEdgePhase_dhcpState, hs]
  have h2 : (linkEdgePhase s i.curPhyLink).1.phyLink = true := by
    rw [linkEdgePhase_phyLink, hl]
  simp only [stateMachine]
  rw [h1, h2, hf]
  simp

lemma stateMachine_done_linkdown {s : EthState} {i : TickInput}
    (hs : s.dhcpState = DhcpState.DONE) (hl : i.curPhyLink = false) :
    (stateMachine s i).1.dhcpState = DhcpState.ATTEMPT := by
  have h1 : (linkEdgePhase s i.curPhyLink).1.dhcpState = DhcpState.DONE := by
    rw [linkEdgePhase_dhcpState, hs]
  have h2 : (linkEdgePhase s i.curPhyLink).1.phyLink = false := by
    rw [linkEdgePhase_phyLink, hl]
  simp only [stateMachine]
  rw [h1, h2]
  simp

lemma stateMachine_got_address {s : EthState} {i : TickInput}
    (hs : s.dhcpState = DhcpState.GOT_ADDRESS) :
    (stateMachine s i).1.dhcpState = DhcpState.CLEANUP ∧
    countGotIp (stateMachine s i).2 = 1 := by
  have h1 : (linkEdgePhase s i.curPhyLink).1.dhcpState = DhcpState.GOT_ADDRESS := by
    rw [linkEdgePhase_dhcpState, hs]
  have h0 : countGotIp (linkEdgePhase s i.curPhyLink).2 = 0 :=
    linkEdgePhase_events_no_gotIp i.curPhyLink (by rw [hs]; intro hc; cases hc)
  simp only [stateMachine]
  rw [h1]
  refine ⟨rfl, ?_⟩
  unfold countGotIp at h0 ⊢
  simp only [List.filter_append, List.length_append, h0]
  simp [isGotIp]

lemma stateMachine_cleanup {s : EthState} {i : TickInput}
    (hs : s.dhcpState = DhcpState.CLEANUP) :
    (stateMachine s i).1.dhcpState = DhcpState.DONE ∧
    countGotIp (stateMachine s i).2 = 0 := by
  have h1 : (linkEdgePhase s i.curPhyLink).1.dhcpState = DhcpState.CLEANUP := by
    rw [linkEdgePhase_dhcpState, hs]
  have h0 : countGotIp (linkEdgePhase s i.curPhyLink).2 = 0 :=
    linkEdgePhase_events_no_gotIp i.curPhyLink (by rw [hs]; intro hc; cases hc)
  simp only [stateMachine]
  rw [h1]
  exact ⟨rfl, h0⟩

lemma stateMachine_noLease_preserves {s : EthState} {i : TickInput}
    (hl : i.lease = none) (h1 : s.isReady = false) (h2 : ipIsZero s.ipAddr) :
    (stateMachine s i).1.isReady = false ∧ ipIsZero (stateMachine s i).1.ipAddr := by
  have e1 := linkEdgePhase_isReady_false (s := s) i.curPhyLink h1 h2
  have e2 := linkEdgePhase_ipAddr s i.curPhyLink
  simp only [stateMachine]
  rw [hl]
  split
  all_goals try split
  all_goals try split
  all_goals simp_all

lemma runTicks_noLease_isReady {is : List TickInput} :
    ∀ {s : EthState}, (∀ i ∈ is, i.lease = none) → s.isReady = false → ipIsZero s.ipAddr →
      (runTicks s is).isReady = false ∧ ipIsZero (runTicks s is).ipAddr := by
  induction is with
  | nil => intro s _ h1 h2; exact ⟨h1, h2⟩
  | cons i is ih =>
      intro s hall h1 h2
      have hstep := stateMachine_noLease_preserves (hall i (by simp)) h1 h2
      simpa [runTicks] using ih (fun j hj => hall j (by simp [hj])) hstep.1 hstep.2

/-!
### Claim theorems

One theorem per claim of the specification review, each over the
definitions embedded above.
-/

/-- C1 (amended): `TCPClient::available()` issues a hardware `recv`
refill attempt exactly when the instance is ready, the socket is
established, and the buffer has room after the drain-reset — that is,
whenever `offset == total` or `total < capacity`, not only when the
buffer is fully drained. When no bytes are pending in the hardware
receive window, `available()` returns `total - offset` and a second
call returns the same count. -/
theorem C1_available_refill (d : TcpData) (hw : TcpHw) :
    ((tcpAvailable d hw).refills = 1 ↔
      hw.ready = true ∧ hw.established = true ∧
        (d.offset = d.total ∨ d.total < TCPCLIENT_BUF_MAX_SIZE)) ∧
    (hw.rx = [] →
      (tcpAvailable d hw).count = d.total - d.offset ∧
      (tcpAvailable (tcpAvailable d hw).d (tcpAvailable d hw).hw).count =
        (tcpAvailable d hw).count) := by
  constructor
  · rw [← recvAttempted_drainReset d hw]
    simp only [tcpAvailable]
    split
    · next hrec => simp [hrec]
    · next hrec => simp [hrec]
  · intro hrx
    obtain ⟨c1, e1, e2⟩ := @tcpAvailable_rx_nil d hw hrx
    refine ⟨c1, ?_⟩
    rw [e1, e2, c1]
    obtain ⟨c2, _, _⟩ := @tcpAvailable_rx_nil (drainReset d) hw hrx
    rw [c2]
    have := drainReset_count d
    unfold bufferCount at this
    omega

/-- C1 counterexample: with a non-empty buffer (`offset = 0 < 1 = total`)
and one byte pending in the hardware window, `available()` performs a
`recv` (refills = 1) and returns 2, not `total - offset = 1` — refuting
the claim that a non-empty buffer is returned as-is with no hardware
read and that a refill happens only when `offset == total`. -/
theorem C1_counterexample :
    ((⟨0, [7], 0, 1, zeroIp⟩ : TcpData).offset < (⟨0, [7], 0, 1, zeroIp⟩ : TcpData).total) ∧
    (tcpAvailable ⟨0, [7], 0, 1, zeroIp⟩ ⟨true, true, [9], none, true, true⟩).refills = 1 ∧
    (tcpAvailable ⟨0, [7], 0, 1, zeroIp⟩ ⟨true, true, [9], none, true, true⟩).count = 2 ∧
    (⟨0, [7], 0, 1, zeroIp⟩ : TcpData).total - (⟨0, [7], 0, 1, zeroIp⟩ : TcpData).offset = 1 := by
  decide

/-- C1 witness: the amended theorem applied at a concrete non-empty
buffer with no pending hardware data. -/
theorem C1_witness :
    (tcpAvailable ⟨0, [5, 6], 0, 2, zeroIp⟩ ⟨true, true, [], none, true, true⟩).count = 2 - 0 ∧
    (tcpAvailable (tcpAvailable ⟨0, [5, 6], 0, 2, zeroIp⟩ ⟨true, true, [], none, true, true⟩).d
        (tcpAvailable ⟨0, [5, 6], 0, 2, zeroIp⟩ ⟨true, true, [], none, true, true⟩).hw).count =
      (tcpAvailable ⟨0, [5, 6], 0, 2, zeroIp⟩ ⟨true, true, [], none, true, true⟩).count :=
  (C1_available_refill _ _).2 rfl

/-- C2: the DHCP state machine moves `ATTEMPT → IN_PROGRESS` on a tick
with link up and a free slot (recording the slot), `ATTEMPT → DONE` when
no slot is free, and `DONE → ATTEMPT` on a tick with link down; and on
the trace "link down, link up, lease arrives, two idle ticks, link down,
link up" starting from `ATTEMPT`, the machine reaches `IN_PROGRESS` a
second time rather than sticking in `DONE` or `CLEANUP`. -/
theorem C2_dhcp_link_cycle :
    (∀ (s : EthState) (i : TickInput) (k : Nat),
        s.dhcpState = DhcpState.ATTEMPT → i.curPhyLink = true → i.freeSocket = some k →
        (stateMachine s i).1.dhcpState = DhcpState.IN_PROGRESS ∧
        (stateMachine s i).1.dhcpSocket = some k) ∧
    (∀ (s : EthState) (i : TickInput),
        s.dhcpState = DhcpState.ATTEMPT → i.curPhyLink = true → i.freeSocket = none →
        (stateMachine s i).1.dhcpState = DhcpState.DONE) ∧
    (∀ (s : EthState) (i : TickInput),
        s.dhcpState = DhcpState.DONE → i.curPhyLink = false →
        (stateMachine s i).1.dhcpState = DhcpState.ATTEMPT) ∧
    ((runTicks ⟨DhcpState.ATTEMPT, false, false, zeroIp, zeroIp, zeroIp, zeroIp, none, false⟩
        [⟨false, some 0, none⟩, ⟨true, some 0, none⟩,
         ⟨true, some 0, some ⟨⟨192, 168, 1, 50⟩, ⟨255, 255, 255, 0⟩, ⟨192, 168, 1, 1⟩, ⟨8, 8, 8, 8⟩⟩⟩,
         ⟨true, some 0, none⟩, ⟨true, some 0, none⟩, ⟨false, some 0, none⟩,
         ⟨true, some 2, none⟩]).dhcpState = DhcpState.IN_PROGRESS) :=
  ⟨fun _ _ _ hs hl hf => stateMachine_attempt_some hs hl hf,
   fun _ _ hs hl hf => stateMachine_attempt_none hs hl hf,
   fun _ _ hs hl => stateMachine_done_linkdown hs hl,
   by decide⟩

/-- C2 witness: the transition facts applied at concrete states. -/
theorem C2_witness :
    (stateMachine ⟨DhcpState.ATTEMPT, true, false, zeroIp, zeroIp, zeroIp, zeroIp, none, false⟩
        ⟨true, some 3, none⟩).1.dhcpState = DhcpState.IN_PROGRESS ∧
    (stateMachine ⟨DhcpState.DONE, true, true, ⟨10, 0, 0, 2⟩, zeroIp, zeroIp, zeroIp, none, false⟩
        ⟨false, none, none⟩).1.dhcpState = DhcpState.ATTEMPT :=
  ⟨(C2_dhcp_link_cycle.1 _ _ 3 rfl rfl rfl).1,
   C2_dhcp_link_cycle.2.2.1 _ _ rfl rfl⟩

/-- C3: with timeout 0 `TCPClient::write` does NOT wait forever — the
do/while condition `timeout != 0 && millis() - start < timeout` is false,
so the loop body runs exactly once for every send behaviour; in
particular a persistently busy send window makes `write(buffer, 1, 0)`
return `SOCK_BUSY` after a single attempt with zero bytes accepted. The
second half of the claim holds: `UDP::receivePacket` with timeout 0 and
no pending datagram returns 0 after a single poll. This contradicts the
claim (and the function's own doc comment "0 to wait forever") for the
write half. -/
theorem C3_zero_timeout :
    (∀ (send : Nat → Int) (size : Nat), (tcpWrite send size 0).2.2.1 = 1) ∧
    tcpWrite (fun _ => SOCK_BUSY) 1 0 = (SOCK_BUSY, none, 1, 0) ∧
    (∀ (recvRes : Int), udpReceivePacket true true (fun _ => 0) recvRes 0 = (0, 1)) := by
  refine ⟨?_, ?_, ?_⟩
  · intro send size
    simp only [tcpWrite]
    rw [writeLoop]
    simp only [ne_eq, not_true_eq_false, false_and, if_false]
    split_ifs <;> rfl
  · simp only [tcpWrite]
    rw [writeLoop]
    norm_num [SOCK_BUSY]
  · intro recvRes
    simp only [udpReceivePacket]
    rw [receivePacketLoop]
    norm_num

/-- C4: `TCPClient::write` DOES pack a negative error code into its
unsigned byte-count return value: when the first send fails with -2, the
function returns `ret = -2` through its `size_t` return type, which
reads back as 4294967294 — neither the 0 bytes actually written nor a
signed error indicator. The code's own FIXME comment acknowledges this. -/
theorem C4_error_packed_into_count :
    tcpWrite (fun _ => -2) 4 30000 = (-2, some (-2), 1, 0) ∧
    sizeTCast (-2) = 4294967294 ∧
    (4294967294 : Nat) ≠ 4 ∧ (4294967294 : Nat) ≠ 0 := by
  refine ⟨?_, by decide, by decide, by decide⟩
  simp only [tcpWrite]
  rw [writeLoop]
  norm_num [SOCK_BUSY]

/-- C5: the DHCP `ip_assign` lease callback only copies the assigned
addresses and records `GOT_ADDRESS`, invoking no user callback; on the
next tick in `GOT_ADDRESS` the `gotIpAddress` callback fires exactly
once and the machine proceeds to `CLEANUP`; a `CLEANUP` tick fires no
further `gotIpAddress`. -/
theorem C5_got_address_once :
    (∀ (L : LeaseInfo) (c : Bool) (s : EthState),
        (ip_assign L c s).2 = [] ∧
        (ip_assign L c s).1.dhcpState = DhcpState.GOT_ADDRESS ∧
        (ip_assign L c s).1.ipAddr = L.ip) ∧
    (∀ (s : EthState) (i : TickInput), s.dhcpState = DhcpState.GOT_ADDRESS →
        countGotIp (stateMachine s i).2 = 1 ∧
        (stateMachine s i).1.dhcpState = DhcpState.CLEANUP) ∧
    (∀ (s : EthState) (i : TickInput), s.dhcpState = DhcpState.CLEANUP →
        countGotIp (stateMachine s i).2 = 0) :=
  ⟨fun _ _ _ => ⟨rfl, rfl, rfl⟩,
   fun _ _ hs => ⟨(stateMachine_got_address hs).2, (stateMachine_got_address hs).1⟩,
   fun _ _ hs => (stateMachine_cleanup hs).2⟩

/-- C5 witness: the once-only notification at a concrete post-lease
state and its follow-up cleanup tick. -/
theorem C5_witness :
    countGotIp (stateMachine
      ⟨DhcpState.GOT_ADDRESS, true, true, ⟨192, 168, 1, 50⟩, zeroIp, zeroIp, zeroIp, some 1, true⟩
      ⟨true, none, none⟩).2 = 1 ∧
    countGotIp (stateMachine
      ⟨DhcpState.CLEANUP, true, true, ⟨192, 168, 1, 50⟩, zeroIp, zeroIp, zeroIp, some 1, true⟩
      ⟨true, none, none⟩).2 = 0 :=
  ⟨(C5_got_address_once.2.1 _ _ rfl).1, C5_got_address_once.2.2 _ _ rfl⟩

/-- C6 (amended): `UDP::leaveMulticast` rebinds as a plain unicast socket
on the same local port only when the socket is currently open in UDP
mode, returning `begin(_port)`'s result (success exactly when a free
slot exists and the open succeeds); when the socket is not open it
returns -1 without rebinding — it is not unconditional and does not
always return success. -/
theorem C6_leaveMulticast_rebinds (s : UdpState) (hw : UdpHw) :
    (hw.sockOpenUdp = false → leaveMulticast s hw = (-1, s)) ∧
    (hw.sockOpenUdp = true →
      (leaveMulticast s hw).2.port = s.port ∧
      (leaveMulticast s hw).2.multicast = false ∧
      ((leaveMulticast s hw).1 = 1 ↔ hw.freeSocket.isSome ∧ hw.socketOk = true) ∧
      (∀ k, hw.freeSocket = some k → hw.socketOk = true →
        (leaveMulticast s hw).2.sock = (k : Int))) := by
  constructor
  · intro h
    simp [leaveMulticast, h]
  · intro h
    have hcond : ¬ (¬ (hw.sockOpenUdp = true)) := by simp [h]
    simp only [leaveMulticast]
    rw [if_neg hcond]
    cases hf : hw.freeSocket with
    | some k =>
        simp only [udpBegin, udpStop, hf]
        split_ifs with hok <;> simp_all
    | none => simp [udpBegin, udpStop, hf]

/-- C6 counterexample: on a socket that is not open, `leaveMulticast`
returns -1 and leaves the state unchanged — refuting "unconditionally
rebinds ... returning success, regardless of the socket's current
state". -/
theorem C6_counterexample :
    leaveMulticast ⟨-1, 1234, 0, 0, false⟩ ⟨false, some 3, true⟩ =
      (-1, ⟨-1, 1234, 0, 0, false⟩) ∧ ¬ ((-1 : Int) = 1) := by
  decide

/-- C6 witness: the amended theorem applied to an open multicast socket
with a free slot: the rebind succeeds on the same port, unicast. -/
theorem C6_witness :
    (leaveMulticast ⟨2, 5000, 0, 0, true⟩ ⟨true, some 4, true⟩).2.port = 5000 ∧
    (leaveMulticast ⟨2, 5000, 0, 0, true⟩ ⟨true, some 4, true⟩).1 = 1 ∧
    (leaveMulticast ⟨2, 5000, 0, 0, true⟩ ⟨true, some 4, true⟩).2.multicast = false ∧
    (leaveMulticast ⟨2, 5000, 0, 0, true⟩ ⟨true, some 4, true⟩).2.sock = 4 := by
  have h := (C6_leaveMulticast_rebinds ⟨2, 5000, 0, 0, true⟩ ⟨true, some 4, true⟩).2 rfl
  exact ⟨h.1, h.2.2.1.mpr (by decide), h.2.1, h.2.2.2 4 rfl rfl⟩

/-- C7 (amended): `TCPServer::begin()` always calls `stop()` first, so
it closes the most recently accepted client and disconnects any held
listening slot before rebinding; the "already listening → trivially
true" early return is unreachable, and success requires readiness, a
free slot, and successful socket+listen calls. -/
theorem C7_begin_stops_first (s : ServerState) (hw : ServerHw) :
    (serverBegin s hw).2.1.clientSock = -1 ∧
    ((serverBegin s hw).1 = true ↔
      hw.ready = true ∧ hw.freeSocket.isSome ∧ hw.socketOk = true ∧ hw.listenOk = true) ∧
    (0 ≤ s.sock → s.sock ∈ (serverBegin s hw).2.2) ∧
    (0 ≤ s.clientSock → s.clientSock ∈ (serverBegin s hw).2.2) := by
  have hmem : (serverBegin s hw).2.2 = (serverStop s).2 := by
    simp only [serverBegin]
    split_ifs <;> rfl
  refine ⟨?_, ?_, ?_, ?_⟩
  · simp only [serverBegin, serverStop]
    cases hf : hw.freeSocket
    all_goals simp [startListener, hf]
    all_goals split_ifs <;> rfl
  · simp only [serverBegin, serverStop]
    cases hf : hw.freeSocket
    all_goals simp [startListener, hf]
    all_goals split_ifs <;> simp_all
  · intro hs
    rw [hmem]
    simp only [serverStop]
    have : ¬ (s.sock < 0) := by omega
    simp [this, hs]
  · intro hc
    rw [hmem]
    simp only [serverStop]
    have : ¬ (s.clientSock < 0) := by omega
    simp [this]

/-- C7 counterexample: a server holding live listening slot 3 and
accepted client socket 5: `begin()` returns true but disconnects were
issued on both 5 and 3 and the client handle was closed — refuting
"returns true and leaves all state unchanged". -/
theorem C7_counterexample :
    serverBegin ⟨3, 5⟩ ⟨true, some 3, true, true⟩ = (true, ⟨3, -1⟩, [5, 3]) ∧
    ¬ ((⟨3, 5⟩ : ServerState) = ⟨3, -1⟩) := by
  decide

/-- C7 witness: the amended theorem applied at a concrete server state
that holds both a listening slot and a client. -/
theorem C7_witness :
    (serverBegin ⟨2, 6⟩ ⟨true, some 0, true, true⟩).2.1.clientSock = -1 ∧
    (2 : Int) ∈ (serverBegin ⟨2, 6⟩ ⟨true, some 0, true, true⟩).2.2 ∧
    (6 : Int) ∈ (serverBegin ⟨2, 6⟩ ⟨true, some 0, true, true⟩).2.2 ∧
    (serverBegin ⟨2, 6⟩ ⟨true, some 0, true, true⟩).1 = true := by
  have h := C7_begin_stops_first ⟨2, 6⟩ ⟨true, some 0, true, true⟩
  exact ⟨h.1, h.2.2.1 (by decide), h.2.2.2 (by decide), h.2.1.mpr (by decide)⟩

/-- C8: every `TCPClient` operation on the shared connection state —
`available`, `read`, `read(buf, n)`, `peek`, `flush_buffer`, `stop`,
`connect` — preserves the invariant `offset ≤ total ≤ capacity`;
`flush_buffer` resets both cursors to zero, and `available()` never
grows `total` past the fixed buffer capacity. -/
theorem C8_buffer_invariant (d : TcpData) (hw : TcpHw) (size : Nat) (ip : IpBytes)
    (h : TcpInv d) :
    TcpInv (tcpAvailable d hw).d ∧
    (tcpAvailable d hw).d.total ≤ TCPCLIENT_BUF_MAX_SIZE ∧
    TcpInv (tcpRead d hw).2.1 ∧
    TcpInv (tcpReadBuf d hw size).2.1 ∧
    TcpInv (tcpPeek d hw).2.1 ∧
    (flush_buffer d).offset = 0 ∧ (flush_buffer d).total = 0 ∧ TcpInv (flush_buffer d) ∧
    TcpInv (tcpStop d) ∧
    TcpInv (tcpConnect d hw ip).2 :=
  ⟨tcpAvailable_inv h, tcpAvailable_total_le h, tcpRead_inv h, tcpReadBuf_inv h,
   tcpPeek_inv h, rfl, rfl, ⟨Nat.le_refl 0, Nat.zero_le _⟩, tcpStop_inv h,
   tcpConnect_inv h⟩

/-- C8 witness: the invariant-preservation theorem applied at a concrete
half-read buffer with data pending in the hardware window. -/
theorem C8_witness :
    TcpInv (⟨0, [7, 8], 1, 2, zeroIp⟩ : TcpData) ∧
    TcpInv (tcpAvailable ⟨0, [7, 8], 1, 2, zeroIp⟩ ⟨true, true, [1, 2, 3], none, true, true⟩).d ∧
    TcpInv (tcpRead ⟨0, [7, 8], 1, 2, zeroIp⟩ ⟨true, true, [1, 2, 3], none, true, true⟩).2.1 :=
  ⟨by decide,
   (C8_buffer_invariant ⟨0, [7, 8], 1, 2, zeroIp⟩
     ⟨true, true, [1, 2, 3], none, true, true⟩ 3 zeroIp (by decide)).1,
   (C8_buffer_invariant ⟨0, [7, 8], 1, 2, zeroIp⟩
     ⟨true, true, [1, 2, 3], none, true, true⟩ 3 zeroIp (by decide)).2.2.1⟩

/-- C9: `inet_gethostbyname` leaves the scratch DNS buffer released
(`delete[]`-d) and the transient hardware slot closed on every return
path; both slot-allocation failure and a non-1 `DNS_run` result yield
-1, and it returns 0 exactly when the buffer was obtainable, a slot was
free, and `DNS_run` reported a resolved address. -/
theorem C9_dns_resource_release (env : DnsEnv) (r : DnsResources)
    (h1 : r.bufLive = false) (h2 : r.slotHeld = none) :
    (inet_gethostbyname env r).2.bufLive = false ∧
    (inet_gethostbyname env r).2.slotHeld = none ∧
    ((inet_gethostbyname env r).1 = 0 ∨ (inet_gethostbyname env r).1 = -1) ∧
    (env.freeSocket = none → (inet_gethostbyname env r).1 = -1) ∧
    (env.dnsRunResult ≠ 1 → (inet_gethostbyname env r).1 = -1) ∧
    ((inet_gethostbyname env r).1 = 0 ↔
      (r.bufPtr = true ∨ env.newOk = true) ∧ env.freeSocket.isSome ∧
        env.dnsRunResult = 1) := by
  simp only [inet_gethostbyname]
  cases hf : env.freeSocket
  all_goals split_ifs <;> simp_all

/-- C9 witness: a successful resolution run releases both resources and
returns 0. -/
theorem C9_witness :
    (inet_gethostbyname ⟨true, some 2, 1⟩ ⟨false, false, none⟩).1 = 0 ∧
    (inet_gethostbyname ⟨true, some 2, 1⟩ ⟨false, false, none⟩).2.bufLive = false ∧
    (inet_gethostbyname ⟨true, some 2, 1⟩ ⟨false, false, none⟩).2.slotHeld = none := by
  have h := C9_dns_resource_release ⟨true, some 2, 1⟩ ⟨false, false, none⟩ rfl rfl
  exact ⟨h.2.2.2.2.2.mpr (by decide), h.1, h.2.1⟩

/-- C10: `withDHCP()` zeroes all four bytes of the stored local IP (so
`localIP()` reports 0.0.0.0) and sets the DHCP state to `ATTEMPT`; from
any not-ready state, any sequence of maintenance ticks in which no DHCP
lease arrives — link-up and link-down edges included — leaves `ready()`
false. -/
theorem C10_withDHCP_clears_ip (s : EthState) (h : s.isReady = false) :
    localIP (withDHCP s) = zeroIp ∧
    (withDHCP s).dhcpState = DhcpState.ATTEMPT ∧
    ∀ (is : List TickInput), (∀ i ∈ is, i.lease = none) →
      (runTicks (withDHCP s) is).isReady = false :=
  ⟨rfl, rfl, fun _ hall =>
    (runTicks_noLease_isReady hall (by simpa [withDHCP] using h)
      (by simp [withDHCP, zeroIp, ipIsZero])).1⟩

/-- C10 witness: switching a static configuration back to DHCP at a
concrete state, then ticking through a link cycle with no lease. -/
theorem C10_witness :
    localIP (withDHCP
      ⟨DhcpState.NOT_USED, true, false, ⟨192, 168, 1, 2⟩, zeroIp, zeroIp, zeroIp, none, false⟩) = zeroIp ∧
    (runTicks (withDHCP
      ⟨DhcpState.NOT_USED, true, false, ⟨192, 168, 1, 2⟩, zeroIp, zeroIp, zeroIp, none, false⟩)
      [⟨false, some 0, none⟩, ⟨true, some 0, none⟩, ⟨true, some 0, none⟩]).isReady = false :=
  ⟨(C10_withDHCP_clears_ip _ rfl).1,
   (C10_withDHCP_clears_ip _ rfl).2.2 _ (by decide)⟩

end IsolatedEthernetModel
